import Mathlib

/-!
Shallow embedding of the task persistence/mutation layer of the ToDo-App
repository (`todo_app/todo_logic/task.py`, `task_dict.py`, `task_manager.py`).

Python objects are modelled functionally: a method that mutates `self` becomes
a function returning the new object; a method that can raise becomes a
function returning `Except PyError _`; methods that both mutate state and can
raise return the raised-or-returned value together with the state as it stands
when control leaves the method (Python exceptions do not roll back prior field
assignments).  `str.strip()` is modelled by `pyStrip` (see its doc
comment).
-/

namespace ToDoApp

/-- Abstract stand-in for a Python `datetime.datetime` value.  Only identity
of the value matters to the persistence layer, so it is a wrapper over `Nat`. -/
structure PyDateTime where
  stamp : Nat
deriving DecidableEq, Repr

/-- The Python exceptions the embedded code can raise. -/
inductive PyError where
  | valueError (msg : String)
  | keyError (key : String)
  | typeError (msg : String)
deriving DecidableEq, Repr

/-- A Python value as it can appear in a task record (`Task.to_dict` output or
an element of a loaded JSON array): a string, a bool, `None`, or a raw
`datetime` object (the latter is what `Task.to_dict` actually puts under
`due_date`). -/
inductive PyVal where
  | vstr (s : String)
  | vbool (b : Bool)
  | vnone
  | vdatetime (d : PyDateTime)
deriving DecidableEq, Repr

/-- Whether a record value is a string or `None` (the shapes the spec allows
for the `due_date` / `due_time` fields of a persisted record). -/
def PyVal.isStrOrNone : PyVal → Bool
  | .vstr _ => true
  | .vnone => true
  | _ => false

/-- Drop leading whitespace characters from a character list. -/
def dropSpaces : List Char → List Char
  | [] => []
  | c :: cs => if c.isWhitespace then dropSpaces cs else c :: cs

/-- Python `str.strip()` with no arguments: removes leading and trailing
whitespace.  Modelled structurally (left-strip, then left-strip the reversal
and reverse back); the whitespace set is `Char.isWhitespace`, which covers
the ASCII whitespace Python strips (Python additionally strips some rarer
control and Unicode space characters no claim exercises). -/
def pyStrip (s : String) : String :=
  String.mk ((dropSpaces (dropSpaces s.data).reverse).reverse)

/-- The `Task` object of `todo_logic/task.py`: fields `_name`, `_description`,
`_due_date`, `_task_id`, `_is_complete` (exposed through same-named
properties). -/
structure Task where
  name : String
  description : Option String
  due_date : Option PyDateTime
  task_id : String
  is_complete : Bool
deriving DecidableEq, Repr

/-- The `name` property setter of `Task`: strips the value, raises
`ValueError` if the result is empty, otherwise stores the stripped value. -/
def Task.setName (t : Task) (value : String) : Except PyError Task :=
  let value := pyStrip value
  if value = "" then
    .error (.valueError "The name of the task cannot be an empty string.")
  else
    .ok { t with name := value }

/-- The `description` property setter of `Task`: `None` clears the field; a
non-`None` value is stripped and raises `ValueError` if the result is empty,
otherwise the stripped value is stored. -/
def Task.setDescription (t : Task) (value : Option String) : Except PyError Task :=
  match value with
  | none => .ok { t with description := none }
  | some v =>
    let v := pyStrip v
    if v = "" then
      .error (.valueError "The description of the task cannot be an empty string.")
    else
      .ok { t with description := some v }

/-- The `due_date` property setter of `Task`: unconstrained. -/
def Task.setDueDate (t : Task) (value : Option PyDateTime) : Task :=
  { t with due_date := value }

/-- The `is_complete` property setter of `Task`: stores `bool(value)`, which
on a `Bool` argument is the identity. -/
def Task.setIsComplete (t : Task) (value : Bool) : Task :=
  { t with is_complete := value }

/-- Constructor `Task.__init__`: picks `task_id` if truthy (non-`None`, non-empty), else a
freshly generated `uuid4` string, modelled by the explicit argument `gen`;
then runs the `name`, `description`, `due_date`, `is_complete` setters in
order.  A `ValueError` from a setter propagates out of the constructor. -/
def Task.init (name : String) (description : Option String)
    (due_date : Option PyDateTime) (task_id : Option String)
    (is_complete : Bool) (gen : String) : Except PyError Task := do
  let tid : String :=
    match task_id with
    | some s => if s = "" then gen else s
    | none => gen
  let t0 : Task :=
    { name := "", description := none, due_date := none,
      task_id := tid, is_complete := false }
  let t1 ← t0.setName name
  let t2 ← t1.setDescription description
  let t3 := t2.setDueDate due_date
  .ok (t3.setIsComplete is_complete)

/-- Method `Task.to_dict`: builds the record dict with exactly the keys `name`,
`description`, `due_date`, `task_id`, `is_complete`, in that insertion order.
Note that the source stores `self._due_date` (the raw datetime object) under
`due_date` and emits no `due_time` key, although its declared return type
`TaskDict` promises string-or-`None` `due_date` and `due_time` entries. -/
def Task.to_dict (t : Task) : List (String × PyVal) :=
  [ ("name", PyVal.vstr t.name),
    ("description",
      match t.description with
      | none => PyVal.vnone
      | some s => PyVal.vstr s),
    ("due_date",
      match t.due_date with
      | none => PyVal.vnone
      | some d => PyVal.vdatetime d),
    ("task_id", PyVal.vstr t.task_id),
    ("is_complete", PyVal.vbool t.is_complete) ]

/-- The keyword parameters accepted by `Task.__init__` besides `self`. -/
def taskInitKeys : List String :=
  ["name", "description", "due_date", "task_id", "is_complete"]

/-- Classmethod `Task.from_dict(adict)`, i.e. `cls(**adict)`: every key of the dict becomes a
keyword argument of `Task.__init__`; an unexpected key raises `TypeError`, a
missing `name` raises `TypeError`, missing optional keys fall back to the
constructor defaults.  Python performs no type checking on the values; the
`typeError` branches below mark value shapes outside this model (e.g. a
datetime under `name`), which Python would instead push into the setters
unchecked.  No claim exercises those shapes. -/
def Task.from_dict (adict : List (String × PyVal)) (gen : String) :
    Except PyError Task :=
  if adict.any (fun kv => !(taskInitKeys.contains kv.1)) then
    .error (.typeError "unexpected keyword argument")
  else do
    let name ←
      match adict.lookup "name" with
      | some (.vstr s) => Except.ok s
      | some _ => Except.error (.typeError "name is not a string")
      | none => Except.error (.typeError "missing required argument name")
    let description ←
      match adict.lookup "description" with
      | some (.vstr s) => Except.ok (some s)
      | some .vnone => Except.ok (none : Option String)
      | some _ => Except.error (.typeError "description is not a string")
      | none => Except.ok (none : Option String)
    let due_date ←
      match adict.lookup "due_date" with
      | some (.vdatetime d) => Except.ok (some d)
      | some .vnone => Except.ok (none : Option PyDateTime)
      | some _ => Except.error (.typeError "due_date is not a datetime")
      | none => Except.ok (none : Option PyDateTime)
    let task_id ←
      match adict.lookup "task_id" with
      | some (.vstr s) => Except.ok (some s)
      | some .vnone => Except.ok (none : Option String)
      | some _ => Except.error (.typeError "task_id is not a string")
      | none => Except.ok (none : Option String)
    let is_complete ←
      match adict.lookup "is_complete" with
      | some (.vbool b) => Except.ok b
      | some _ => Except.error (.typeError "is_complete is not a bool")
      | none => Except.ok false
    Task.init name description due_date task_id is_complete gen

/-- Equality `Task.__eq__`: equality solely by `task_id`. -/
def Task.pyEq (a b : Task) : Bool :=
  a.task_id == b.task_id

/-- Well-formedness of a `Task` as established by `Task.__init__`: the stored
name is stripped and non-empty, a stored description is stripped and
non-empty, and the id is non-empty (a `uuid4` string or a caller-supplied
truthy id). -/
def Task.WF (t : Task) : Prop :=
  pyStrip t.name = t.name ∧ t.name ≠ "" ∧
  (match t.description with
   | none => True
   | some d => pyStrip d = d ∧ d ≠ "") ∧
  t.task_id ≠ ""

/-- Encoding by `json.dump` of a single record value: strings, bools and `None`
serialize to themselves; a raw `datetime` object raises `TypeError`. -/
def dumpVal : PyVal → Except PyError PyVal
  | .vdatetime _ => .error (.typeError "Object of type datetime is not JSON serializable")
  | v => .ok v

/-- Encoding by `json.dump` of one record (one element of `save_list`). -/
def dumpRecord (r : List (String × PyVal)) : Except PyError (List (String × PyVal)) :=
  r.mapM (fun kv => do pure (kv.1, ← dumpVal kv.2))

/-- The serialization `save_tasks` performs: `tuple(value.to_dict() for value
in self._tasks.values())` fed to `json.dump`. -/
def serializeTasks (ts : List (String × Task)) :
    Except PyError (List (List (String × PyVal))) :=
  ts.mapM (fun kv => dumpRecord kv.2.to_dict)

/-- The content of the file at `self._path`: absent, present but not valid
JSON (also the state `json.dump` leaves behind when it raises part-way, the
file having already been truncated by `open("w")`), or a valid JSON array of
records as Python would load them back. -/
inductive PFile where
  | missing
  | invalid
  | stored (records : List (List (String × PyVal)))
deriving DecidableEq, Repr

/-- The `TaskManager` state: the `_tasks` dict (modelled as an
insertion-ordered association list, as Python dicts are) together with the
content of the backing file. -/
structure TaskManager where
  _tasks : List (String × Task)
  file : PFile
deriving DecidableEq, Repr

/-- Python dict assignment `d[k] = v`: replaces the entry in place when `k`
is already a key, otherwise appends a new entry. -/
def dictInsert {α : Type} (m : List (String × α)) (k : String) (v : α) :
    List (String × α) :=
  if (m.lookup k).isSome then
    m.map (fun kv => if kv.1 = k then (k, v) else kv)
  else
    m ++ [(k, v)]

/-- The `tasks` property: `tuple(self._tasks.values())`. -/
def TaskManager.tasks (m : TaskManager) : List Task :=
  m._tasks.map Prod.snd

/-- Method `TaskManager.save_tasks`: serializes the whole mapping and rewrites the
file with it.  `open("w")` truncates before `json.dump` runs, so when the
serialization raises (raw datetime in a record) the file is left truncated,
i.e. not valid JSON. -/
def TaskManager.save_tasks (m : TaskManager) :
    Except PyError Unit × TaskManager :=
  match serializeTasks m._tasks with
  | .ok rs => (.ok (), { m with file := .stored rs })
  | .error e => (.error e, { m with file := .invalid })

/-- One step of the dict comprehension in `load_tasks`:
`{task["task_id"]: Task.from_dict(task) for task in tasks}`.  The key
expression `task["task_id"]` is evaluated first (`KeyError` when absent),
then `Task.from_dict`; entries accumulate left to right with Python dict
assignment semantics.  `i` numbers the records so that each generated uuid is
distinct. -/
def loadRecords :
    List (List (String × PyVal)) → Nat → List (String × Task) →
      Except PyError (List (String × Task))
  | [], _, acc => .ok acc
  | r :: rs, i, acc => do
    let tid ←
      match r.lookup "task_id" with
      | some (.vstr s) => Except.ok s
      | some _ => Except.error (.typeError "task_id is not a string")
      | none => Except.error (.keyError "task_id")
    let t ← Task.from_dict r (String.append "uuid" (toString i))
    loadRecords rs (i + 1) (dictInsert acc tid t)

/-- Method `TaskManager.load_tasks`: a missing file is left alone (mapping
untouched, no write); a file that raises `JSONDecodeError` is handled by
calling `save_tasks()` — note the source assigns `self._tasks` only on a
successful parse, so the mapping is NOT cleared and the rewrite uses the
current mapping; a file that parses replaces the mapping (an exception while
rebuilding the tasks propagates and leaves the mapping untouched). -/
def TaskManager.load_tasks (m : TaskManager) :
    Except PyError Unit × TaskManager :=
  match m.file with
  | .missing => (.ok (), m)
  | .invalid => m.save_tasks
  | .stored rs =>
    match loadRecords rs 0 [] with
    | .ok ts => (.ok (), { m with _tasks := ts })
    | .error e => (.error e, m)

/-- Constructor `TaskManager.__init__`: starts with an empty mapping and calls
`load_tasks()`. -/
def TaskManager.init (file : PFile) : Except PyError Unit × TaskManager :=
  TaskManager.load_tasks { _tasks := [], file := file }

/-- Method `TaskManager.add_task`: the check `self._tasks.get(task.task_id)` is truthy exactly
when the id is present (a `Task` object is always truthy), in which case
`False` is returned; otherwise the task is inserted, `save_tasks()` runs (its
exceptions propagate), and `True` is returned. -/
def TaskManager.add_task (m : TaskManager) (task : Task) :
    Except PyError Bool × TaskManager :=
  match m._tasks.lookup task.task_id with
  | some _ => (.ok false, m)
  | none =>
    match TaskManager.save_tasks { m with _tasks := dictInsert m._tasks task.task_id task } with
    | (.ok _, m2) => (.ok true, m2)
    | (.error e, m2) => (.error e, m2)

/-- The setter cascade inside `modify_task`: each supplied (non-`None`)
field is assigned through the corresponding `Task` setter, in source order
`name`, `description`, `due_date`, `is_complete`.  Returns the raised-or-final
result together with the task as it stands when control leaves the cascade:
in Python `task` aliases the dict entry, so setters applied before a raising
one stay applied. -/
def applyMods (task : Task) (name description : Option String)
    (due_date : Option PyDateTime) (is_complete : Option Bool) :
    Except PyError Task × Task :=
  let r1 :=
    match name with
    | none => Except.ok task
    | some n => task.setName n
  match r1 with
  | .error e => (.error e, task)
  | .ok t1 =>
    let r2 :=
      match description with
      | none => Except.ok t1
      | some d => t1.setDescription (some d)
    match r2 with
    | .error e => (.error e, t1)
    | .ok t2 =>
      let t3 :=
        match due_date with
        | none => t2
        | some d => t2.setDueDate (some d)
      let t4 :=
        match is_complete with
        | none => t3
        | some b => t3.setIsComplete b
      (.ok t4, t4)

/-- Method `TaskManager.modify_task`: returns `False` when the id is absent;
otherwise runs the setter cascade on the stored task (aliased, so already
applied assignments survive a later `ValueError`), re-stores it, runs
`save_tasks()` and returns `True`.  A setter exception propagates before any
file write. -/
def TaskManager.modify_task (m : TaskManager) (task_id : String)
    (name : Option String) (description : Option String)
    (due_date : Option PyDateTime) (is_complete : Option Bool) :
    Except PyError Bool × TaskManager :=
  match m._tasks.lookup task_id with
  | none => (.ok false, m)
  | some task =>
    match applyMods task name description due_date is_complete with
    | (.ok t, _) =>
      match TaskManager.save_tasks { m with _tasks := dictInsert m._tasks task_id t } with
      | (.ok _, m2) => (.ok true, m2)
      | (.error e, m2) => (.error e, m2)
    | (.error e, t) =>
      (.error e, { m with _tasks := dictInsert m._tasks task_id t })

/-- Method `TaskManager.delete_task`: the call `self._tasks.pop(task_id)` with NO default —
a missing id raises `KeyError` and nothing is written.  On a present id the
popped `Task` object is truthy, so `result` is `True`, `save_tasks()` runs
and `True` is returned. -/
def TaskManager.delete_task (m : TaskManager) (task_id : String) :
    Except PyError Bool × TaskManager :=
  match m._tasks.lookup task_id with
  | none => (.error (.keyError task_id), m)
  | some _ =>
    match TaskManager.save_tasks { m with _tasks := m._tasks.filter (fun kv => kv.1 ≠ task_id) } with
    | (.ok _, m2) => (.ok true, m2)
    | (.error e, m2) => (.error e, m2)

/-- The consistency invariant claimed by the spec: the file holds exactly the
serialization of the current in-memory mapping. -/
def fileConsistent (m : TaskManager) : Prop :=
  ∃ rs, serializeTasks m._tasks = Except.ok rs ∧ m.file = PFile.stored rs

/-- How many tasks of the `list()` snapshot carry a given id. -/
def countId (m : TaskManager) (x : String) : Nat :=
  (m.tasks.filter (fun t => t.task_id = x)).length

/-- Every dict entry stores a task whose `task_id` equals its key — true of
every store the source can build, since tasks are keyed by their own id on
`add` and on `load`, and `task_id` has no setter. -/
def keysConsistent (m : TaskManager) : Bool :=
  m._tasks.all (fun kv => kv.2.task_id == kv.1)

/-- The task the spec says `modify(id, ...)` produces on an existing id with
valid supplied values: each supplied (non-null) field updated — name and
description stored stripped, as the setters store them — and every other
field, including `task_id`, untouched. -/
def specModifiedTask (task : Task) (name description : Option String)
    (due_date : Option PyDateTime) (is_complete : Option Bool) : Task :=
  { name :=
      match name with
      | none => task.name
      | some s => pyStrip s,
    description :=
      match description with
      | none => task.description
      | some s => some (pyStrip s),
    due_date :=
      match due_date with
      | none => task.due_date
      | some d => some d,
    task_id := task.task_id,
    is_complete :=
      match is_complete with
      | none => task.is_complete
      | some b => b }

/-- A sample well-formed task with no due date. -/
def sampleTask : Task :=
  { name := "a", description := none, due_date := none,
    task_id := "a", is_complete := false }

/-- A sample datetime value. -/
def sampleDate : PyDateTime := { stamp := 20240101 }

/-- A sample well-formed task carrying a due date. -/
def sampleTaskDated : Task :=
  { name := "a", description := none, due_date := some sampleDate,
    task_id := "a", is_complete := false }

/-- A sample well-formed task with every optional field populated. -/
def sampleTaskFull : Task :=
  { name := "a", description := some "b", due_date := some sampleDate,
    task_id := "a", is_complete := true }

/-- A store with an empty mapping whose file holds the empty array. -/
def emptyManager : TaskManager :=
  { _tasks := [], file := PFile.stored [] }

/-- A consistent one-task store. -/
def managerA : TaskManager :=
  { _tasks := [("a", sampleTask)], file := PFile.stored [Task.to_dict sampleTask] }

/-- A store with a non-empty mapping whose backing file is missing. -/
def managerNoFile : TaskManager :=
  { _tasks := [("a", sampleTask)], file := PFile.missing }

/-- A store with a non-empty mapping whose backing file holds malformed
JSON. -/
def managerBadFile : TaskManager :=
  { _tasks := [("a", sampleTask)], file := PFile.invalid }

/-! Helper lemmas shared by the claim theorems. -/

/-- Lemma: `save_tasks` never touches the in-memory mapping, only the file. -/
theorem save_tasks_tasks_eq (m : TaskManager) :
    ((TaskManager.save_tasks m).2)._tasks = m._tasks := by
  unfold TaskManager.save_tasks
  rcases h : serializeTasks m._tasks with rs | e <;> simp [h]

/-- When `save_tasks` returns normally, the file holds exactly the
serialization of the mapping. -/
theorem save_tasks_ok_consistent (m m2 : TaskManager) (u : Unit)
    (h : TaskManager.save_tasks m = (Except.ok u, m2)) : fileConsistent m2 := by
  unfold TaskManager.save_tasks at h
  rcases hs : serializeTasks m._tasks with e | rs
  · rw [hs] at h
    simp at h
  · rw [hs] at h
    injection h with h1 h2
    subst h2
    exact ⟨rs, hs, rfl⟩

/-- Lemma: `add_task` reports `True` only after a completed rewrite of the file. -/
theorem add_task_true_consistent (m m2 : TaskManager) (t : Task)
    (h : TaskManager.add_task m t = (Except.ok true, m2)) : fileConsistent m2 := by
  unfold TaskManager.add_task at h
  split at h
  · simp at h
  · split at h
    · next u m2' heq =>
      cases h
      exact save_tasks_ok_consistent _ _ u heq
    · next e m2' heq => simp at h

/-- Lemma: `modify_task` reports `True` only after a completed rewrite of the file. -/
theorem modify_task_true_consistent (m m2 : TaskManager) (tid : String)
    (n d : Option String) (dd : Option PyDateTime) (ic : Option Bool)
    (h : TaskManager.modify_task m tid n d dd ic = (Except.ok true, m2)) :
    fileConsistent m2 := by
  unfold TaskManager.modify_task at h
  split at h
  · simp at h
  · split at h
    · split at h
      · next u m2' heq =>
        cases h
        exact save_tasks_ok_consistent _ _ u heq
      · next e m2' heq => simp at h
    · simp at h

/-- Lemma: `delete_task` reports `True` only after a completed rewrite of the file. -/
theorem delete_task_true_consistent (m m2 : TaskManager) (tid : String)
    (h : TaskManager.delete_task m tid = (Except.ok true, m2)) :
    fileConsistent m2 := by
  unfold TaskManager.delete_task at h
  split at h
  · simp at h
  · split at h
    · next u m2' heq =>
      cases h
      exact save_tasks_ok_consistent _ _ u heq
    · next e m2' heq => simp at h

/-- Lemma: `Task.__init__` on values already in stored form (stripped non-empty
name and description, truthy explicit id) succeeds and stores them
verbatim. -/
theorem init_of_valid (n : String) (ds : Option String) (dd : Option PyDateTime)
    (ti : String) (ic : Bool) (gen : String)
    (h1 : pyStrip n = n) (h2 : n ≠ "")
    (h3 : match ds with
          | none => True
          | some d => pyStrip d = d ∧ d ≠ "")
    (h4 : ti ≠ "") :
    Task.init n ds dd (some ti) ic gen =
      Except.ok
        { name := n, description := ds, due_date := dd,
          task_id := ti, is_complete := ic } := by
  cases ds with
  | none =>
    simp only [Task.init, Task.setName, Task.setDescription, Task.setDueDate,
      Task.setIsComplete, h1, if_neg h2, if_neg h4]
    rfl
  | some d =>
    obtain ⟨h31, h32⟩ := h3
    simp only [Task.init, Task.setName, Task.setDescription, Task.setDueDate,
      Task.setIsComplete, h1, h31, if_neg h2, if_neg h32, if_neg h4]
    rfl

/-! The claim theorems. -/

/-- Claim C1: the claim says `delete(id)` on a missing id returns boolean
failure and never raises.  The code calls `self._tasks.pop(task_id)` with no
default, which raises `KeyError` for a missing id.  This theorem evaluates
the code at the failing input: deleting id `x` from an empty store raises
`KeyError` (and, as the claim requires of the mapping and file, leaves both
untouched — but by raising, not by returning `False`). -/
theorem claim_C1_delete_missing_raises_keyerror :
    TaskManager.delete_task emptyManager "x" =
      (Except.error (PyError.keyError "x"), emptyManager) := by
  rfl

/-- Claim C2: every mutating operation that reports success (`add_task`,
`modify_task` or `delete_task` returning `True`) has performed a full rewrite
of the backing file from the current in-memory mapping before returning, so
immediately afterwards the file content equals the serialization of the
mapping. -/
theorem claim_C2_success_implies_file_matches (m : TaskManager) (t : Task)
    (tid : String) (n d : Option String) (dd : Option PyDateTime)
    (ic : Option Bool) :
    ((TaskManager.add_task m t).1 = Except.ok true →
      fileConsistent (TaskManager.add_task m t).2) ∧
    ((TaskManager.modify_task m tid n d dd ic).1 = Except.ok true →
      fileConsistent (TaskManager.modify_task m tid n d dd ic).2) ∧
    ((TaskManager.delete_task m tid).1 = Except.ok true →
      fileConsistent (TaskManager.delete_task m tid).2) :=
  ⟨fun h => add_task_true_consistent m _ t (by rw [← h]),
   fun h => modify_task_true_consistent m _ tid n d dd ic (by rw [← h]),
   fun h => delete_task_true_consistent m _ tid (by rw [← h])⟩

/-- Witness for claim C2: concrete successful add, modify and delete, each
leaving the file equal to the serialization of the mapping. -/
theorem claim_C2_witness :
    fileConsistent (TaskManager.add_task emptyManager sampleTask).2 ∧
    fileConsistent (TaskManager.modify_task managerA "a" none none none (some true)).2 ∧
    fileConsistent (TaskManager.delete_task managerA "a").2 :=
  ⟨(claim_C2_success_implies_file_matches emptyManager sampleTask "a"
      none none none none).1 (by rfl),
   (claim_C2_success_implies_file_matches managerA sampleTask "a"
      none none none (some true)).2.1 (by rfl),
   (claim_C2_success_implies_file_matches managerA sampleTask "a"
      none none none none).2.2 (by rfl)⟩

/-- Claim C7: `modify` on an id absent from the mapping returns `False` and
leaves the whole store state — in-memory mapping and on-disk file — exactly
as it was. -/
theorem claim_C7_modify_missing_unchanged (m : TaskManager) (tid : String)
    (n d : Option String) (dd : Option PyDateTime) (ic : Option Bool)
    (h : m._tasks.lookup tid = none) :
    TaskManager.modify_task m tid n d dd ic = (Except.ok false, m) := by
  unfold TaskManager.modify_task
  rw [h]

/-- Witness for claim C7: modifying a missing id on a concrete store. -/
theorem claim_C7_witness :
    TaskManager.modify_task managerA "x" (some "New") none none none =
      (Except.ok false, managerA) :=
  claim_C7_modify_missing_unchanged managerA "x" (some "New") none none none
    (by rfl)

/-- Claim C3: the claim (mirroring the `TaskDict` declaration) says each
persisted record has exactly the six keys `name`, `description`, `due_date`,
`due_time`, `task_id`, `is_complete`, with `due_date`/`due_time` ISO-8601
strings or null.  `Task.to_dict` actually emits exactly five keys — no
`due_time` — and stores the raw `datetime` object under `due_date`, so
`json.dump` raises `TypeError` whenever `due_date` is non-null.  Evaluated at
a concrete task carrying a due date. -/
theorem claim_C3_record_shape :
    (Task.to_dict sampleTaskDated).map Prod.fst =
      ["name", "description", "due_date", "task_id", "is_complete"] ∧
    (Task.to_dict sampleTaskDated).lookup "due_time" = none ∧
    (Task.to_dict sampleTaskDated).lookup "due_date" =
      some (PyVal.vdatetime sampleDate) ∧
    dumpRecord (Task.to_dict sampleTaskDated) =
      Except.error
        (PyError.typeError "Object of type datetime is not JSON serializable") :=
  ⟨rfl, rfl, rfl, rfl⟩

/-- Counterexample for claim C4: the record of a task with a due date holds
the raw datetime object under `due_date` — neither an ISO-8601 string nor
null, contrary to the claim's representation clause. -/
theorem claim_C4_counterexample :
    (Task.to_dict sampleTaskDated).lookup "due_date" =
      some (PyVal.vdatetime sampleDate) ∧
    PyVal.isStrOrNone (PyVal.vdatetime sampleDate) = false :=
  ⟨rfl, rfl⟩

/-- Claim C4 (amended): for every well-formed task `t`,
`Task.from_dict(t.to_dict())` succeeds and returns a task structurally equal
to `t` — hence equal by id and with every field (name, description, due_date,
is_complete) matching exactly, null preserved as null; the record however
carries `due_date` as the raw datetime value, not an ISO-8601 string. -/
theorem claim_C4_roundtrip (t : Task) (h : Task.WF t) (gen : String) :
    Task.from_dict (Task.to_dict t) gen = Except.ok t := by
  obtain ⟨n, ds, dd, ti, ic⟩ := t
  obtain ⟨h1, h2, h3, h4⟩ := h
  have key : Task.from_dict (Task.to_dict ⟨n, ds, dd, ti, ic⟩) gen =
      Task.init n ds dd (some ti) ic gen := by
    cases ds <;> cases dd <;> rfl
  rw [key]
  exact init_of_valid n ds dd ti ic gen h1 h2 h3 h4

/-- Witness for claim C4: round trip of a concrete task with every optional
field populated. -/
theorem claim_C4_witness :
    Task.from_dict (Task.to_dict sampleTaskFull) "g" = Except.ok sampleTaskFull :=
  claim_C4_roundtrip sampleTaskFull
    ⟨by decide, by decide, ⟨by decide, by decide⟩, by decide⟩ "g"

/-- Counterexample for claim C5: `load()` with a non-empty prior mapping and
a missing file leaves the mapping non-empty (the claim says it becomes
empty), and with malformed JSON it neither empties the mapping nor rewrites
the file to an empty array — the rewrite serializes the current mapping. -/
theorem claim_C5_counterexample :
    ((TaskManager.load_tasks managerNoFile).2)._tasks ≠ [] ∧
    ((TaskManager.load_tasks managerBadFile).2)._tasks ≠ [] ∧
    ((TaskManager.load_tasks managerBadFile).2).file ≠ PFile.stored [] := by
  refine ⟨by decide, by decide, by decide⟩

/-- Claim C5 (amended): `load()` replaces the mapping only when the file
exists and parses: a missing file leaves the state untouched; malformed JSON
leaves the mapping untouched and rewrites the file from the current mapping —
which yields the empty array exactly when the mapping is empty, as it is at
construction time; a parsed file replaces the mapping with its contents. -/
theorem claim_C5_load_policy (m : TaskManager)
    (rs : List (List (String × PyVal))) (ts : List (String × Task)) :
    (m.file = PFile.missing → TaskManager.load_tasks m = (Except.ok (), m)) ∧
    (m.file = PFile.invalid →
      ((TaskManager.load_tasks m).2)._tasks = m._tasks ∧
      (m._tasks = [] →
        TaskManager.load_tasks m =
          (Except.ok (), { m with file := PFile.stored [] }))) ∧
    (m.file = PFile.stored rs → loadRecords rs 0 [] = Except.ok ts →
      TaskManager.load_tasks m = (Except.ok (), { m with _tasks := ts })) := by
  obtain ⟨tks, f⟩ := m
  refine ⟨?_, ?_, ?_⟩
  · intro h
    subst h
    rfl
  · intro h
    subst h
    refine ⟨save_tasks_tasks_eq _, ?_⟩
    intro h
    subst h
    rfl
  · intro h hrec
    subst h
    show (match loadRecords rs 0 [] with
      | Except.ok ts =>
          ((Except.ok () : Except PyError Unit),
            ({ _tasks := ts, file := PFile.stored rs } : TaskManager))
      | Except.error e => (Except.error e, { _tasks := tks, file := PFile.stored rs })) =
      (Except.ok (), { _tasks := ts, file := PFile.stored rs })
    rw [hrec]

/-- Witness for claim C5: the three file situations at concrete stores — a
missing file is left alone, malformed JSON with the empty construction-time
mapping yields the empty mapping and an empty-array file, and a parsed file
replaces the mapping. -/
theorem claim_C5_witness :
    TaskManager.load_tasks { _tasks := [], file := PFile.missing } =
      (Except.ok (), { _tasks := [], file := PFile.missing }) ∧
    (((TaskManager.load_tasks { _tasks := [], file := PFile.invalid }).2)._tasks = [] ∧
      TaskManager.load_tasks { _tasks := [], file := PFile.invalid } =
        (Except.ok (), { _tasks := [], file := PFile.stored [] })) ∧
    TaskManager.load_tasks
        { _tasks := [], file := PFile.stored [Task.to_dict sampleTask] } =
      (Except.ok (),
        { _tasks := [("a", sampleTask)],
          file := PFile.stored [Task.to_dict sampleTask] }) :=
  ⟨(claim_C5_load_policy { _tasks := [], file := PFile.missing } [] []).1 rfl,
   ⟨((claim_C5_load_policy { _tasks := [], file := PFile.invalid } [] []).2.1 rfl).1,
    ((claim_C5_load_policy { _tasks := [], file := PFile.invalid } [] []).2.1 rfl).2 rfl⟩,
   (claim_C5_load_policy { _tasks := [], file := PFile.stored [Task.to_dict sampleTask] }
      [Task.to_dict sampleTask] [("a", sampleTask)]).2.2 rfl (by rfl)⟩

/-- Python dict assignment of a key not yet present appends the entry. -/
theorem dictInsert_of_lookup_none {α : Type} (l : List (String × α)) (k : String)
    (v : α) (h : l.lookup k = none) : dictInsert l k v = l ++ [(k, v)] := by
  simp [dictInsert, h]

/-- When the whole mapping serializes, `save_tasks` rewrites the file with
the serialization and returns normally. -/
theorem save_tasks_of_serialize_ok (tks : List (String × Task)) (f : PFile)
    (rs : List (List (String × PyVal)))
    (h : serializeTasks tks = Except.ok rs) :
    TaskManager.save_tasks { _tasks := tks, file := f } =
      (Except.ok (), { _tasks := tks, file := PFile.stored rs }) := by
  unfold TaskManager.save_tasks
  dsimp only
  rw [h]

/-- A key absent from the dict means no stored task carries it as its id,
provided keys are consistent with ids. -/
theorem absent_key_no_task (m : TaskManager) (x : String)
    (hk : keysConsistent m = true) (h : m._tasks.lookup x = none) :
    ∀ u ∈ TaskManager.tasks m, u.task_id ≠ x := by
  intro u hu hx
  obtain ⟨kv, hkv, rfl⟩ := List.mem_map.mp hu
  have h1 : kv.2.task_id = kv.1 := by
    have h1b := List.all_eq_true.mp hk kv hkv
    exact beq_iff_eq.mp h1b
  have h2 : x ≠ kv.1 := by
    have h2b := List.lookup_eq_none_iff.mp h kv hkv
    simpa using h2b
  rw [hx] at h1
  exact h2 h1

/-- Counterexample for claim C6: the claim promises that `add` of a fresh id
returns success for every store, but adding a task carrying a due date to an
empty store raises `TypeError` out of `json.dump` (the record holds the raw
datetime object) instead of returning `True`. -/
theorem claim_C6_counterexample :
    (TaskManager.add_task emptyManager sampleTaskDated).1 =
      Except.error
        (PyError.typeError "Object of type datetime is not JSON serializable") :=
  rfl

/-- Claim C6 (amended): provided the grown mapping serializes (no task with a
non-null due date, given the record bug), `add` of a task with a fresh id `X`
returns success and `list()` then holds exactly one task with id `X`; a
second `add` with id `X` returns failure without raising — that branch needs
no serializability proviso — and the store still holds exactly one such
task. -/
theorem claim_C6_add_unique (m : TaskManager) (t t2 : Task)
    (rs : List (List (String × PyVal)))
    (hk : keysConsistent m = true)
    (habs : m._tasks.lookup t.task_id = none)
    (ht2 : t2.task_id = t.task_id)
    (hser : serializeTasks (m._tasks ++ [(t.task_id, t)]) = Except.ok rs) :
    (TaskManager.add_task m t).1 = Except.ok true ∧
    countId (TaskManager.add_task m t).2 t.task_id = 1 ∧
    (TaskManager.add_task (TaskManager.add_task m t).2 t2).1 = Except.ok false ∧
    countId (TaskManager.add_task (TaskManager.add_task m t).2 t2).2 t.task_id = 1 := by
  have hins := dictInsert_of_lookup_none m._tasks t.task_id t habs
  have hadd : TaskManager.add_task m t =
      (Except.ok true,
        { _tasks := m._tasks ++ [(t.task_id, t)], file := PFile.stored rs }) := by
    unfold TaskManager.add_task
    split
    · next x heq => rw [habs] at heq; cases heq
    · rw [hins, save_tasks_of_serialize_ok _ _ _ hser]
  have hlook2 : (m._tasks ++ [(t.task_id, t)]).lookup t2.task_id = some t := by
    rw [ht2, List.lookup_append, habs, Option.none_or]
    exact List.lookup_cons_self
  rw [hadd]
  have hcount : countId
      ({ _tasks := m._tasks ++ [(t.task_id, t)],
         file := PFile.stored rs } : TaskManager) t.task_id = 1 := by
    unfold countId TaskManager.tasks
    dsimp only
    rw [List.map_append, List.filter_append]
    have hz : (m._tasks.map Prod.snd).filter
        (fun u => decide (u.task_id = t.task_id)) = [] := by
      refine List.filter_eq_nil_iff.mpr ?_
      intro a ha
      simpa using absent_key_no_task m t.task_id hk habs a ha
    rw [hz]
    simp
  have hadd2 : TaskManager.add_task
      ({ _tasks := m._tasks ++ [(t.task_id, t)],
         file := PFile.stored rs } : TaskManager) t2 =
      (Except.ok false,
        { _tasks := m._tasks ++ [(t.task_id, t)], file := PFile.stored rs }) := by
    unfold TaskManager.add_task
    split
    · rfl
    · next heq =>
      dsimp only at heq
      rw [hlook2] at heq
      cases heq
  refine ⟨rfl, hcount, ?_, ?_⟩
  · rw [hadd2]
  · rw [hadd2]
    exact hcount

/-- Witness for claim C6: adding a fresh concrete task succeeds with exactly
one copy; re-adding it fails and leaves one copy. -/
theorem claim_C6_witness :
    (TaskManager.add_task emptyManager sampleTask).1 = Except.ok true ∧
    countId (TaskManager.add_task emptyManager sampleTask).2 sampleTask.task_id = 1 ∧
    (TaskManager.add_task (TaskManager.add_task emptyManager sampleTask).2 sampleTask).1 =
      Except.ok false ∧
    countId (TaskManager.add_task
        (TaskManager.add_task emptyManager sampleTask).2 sampleTask).2
      sampleTask.task_id = 1 :=
  claim_C6_add_unique emptyManager sampleTask sampleTask [Task.to_dict sampleTask]
    rfl rfl rfl rfl

/-- The setter cascade of `modify_task`, when every supplied value is valid,
produces exactly the spec's modified task: supplied fields updated, all
others untouched. -/
theorem applyMods_valid (task : Task) (n d : Option String)
    (dd : Option PyDateTime) (ic : Option Bool)
    (hn : ∀ s, n = some s → ¬pyStrip s = "")
    (hd : ∀ s, d = some s → ¬pyStrip s = "") :
    applyMods task n d dd ic =
      (Except.ok (specModifiedTask task n d dd ic),
        specModifiedTask task n d dd ic) := by
  rcases n with _ | n <;> rcases d with _ | d <;> rcases dd with _ | dd <;>
    rcases ic with _ | ic <;>
      simp [applyMods, Task.setName, Task.setDescription, Task.setDueDate,
        Task.setIsComplete, specModifiedTask, hn, hd]

/-- Claim C8: `modify` on an existing id with valid supplied values updates
exactly the supplied (non-null) fields of that task — name stored stripped,
as the setter stores it — and leaves every unsupplied field, every other
task, and the order of the mapping untouched; in particular
`modify(id, name="New")` changes only `name`. -/
theorem claim_C8_modify_frame (m : TaskManager) (tid : String) (task : Task)
    (n d : Option String) (dd : Option PyDateTime) (ic : Option Bool)
    (hfound : m._tasks.lookup tid = some task)
    (hn : ∀ s, n = some s → ¬pyStrip s = "")
    (hd : ∀ s, d = some s → ¬pyStrip s = "") :
    ((TaskManager.modify_task m tid n d dd ic).2)._tasks =
      dictInsert m._tasks tid (specModifiedTask task n d dd ic) := by
  unfold TaskManager.modify_task
  split
  · next heq => rw [hfound] at heq; cases heq
  · next task2 heq =>
    rw [hfound] at heq
    injection heq with heq
    subst heq
    split
    · next t1 snd heq2 =>
      rw [applyMods_valid task n d dd ic hn hd] at heq2
      injection heq2 with e1 e2
      injection e1 with e1
      subst e1
      split
      · next u m2 heq3 =>
        have h3 := save_tasks_tasks_eq
          { m with _tasks := dictInsert m._tasks tid (specModifiedTask task n d dd ic) }
        rw [heq3] at h3
        exact h3
      · next e m2 heq3 =>
        have h3 := save_tasks_tasks_eq
          { m with _tasks := dictInsert m._tasks tid (specModifiedTask task n d dd ic) }
        rw [heq3] at h3
        exact h3
    · next e t1 heq2 =>
      rw [applyMods_valid task n d dd ic hn hd] at heq2
      cases heq2

/-- Witness for claim C8: a concrete name-only modify on an existing id. -/
theorem claim_C8_witness :
    ((TaskManager.modify_task managerA "a" (some "New") none none none).2)._tasks =
      dictInsert managerA._tasks "a"
        (specModifiedTask sampleTask (some "New") none none none) :=
  claim_C8_modify_frame managerA "a" sampleTask (some "New") none none none rfl
    (fun s hs => by cases hs; decide)
    (fun s hs => by cases hs)

/-- Claim C9: constructing a Task with a name that strips to non-empty
succeeds and stores the stripped name, as does the name setter, which leaves
all other fields untouched; a name that strips to empty is rejected with
`ValueError` by both the setter and the constructor, and so is a non-null
description that strips to empty — the rejected setter performs no
assignment, so the prior field value is kept (the setters here are pure: an
error return leaves the caller's task exactly as it was). -/
theorem claim_C9_name_description_validation (s e : String) (t : Task)
    (ti : Option String) (ic : Bool) (g : String)
    (hs : pyStrip s ≠ "") (he : pyStrip e = "") :
    (∃ t1, Task.init s none none ti ic g = Except.ok t1 ∧ t1.name = pyStrip s) ∧
    Task.setName t s = Except.ok { t with name := pyStrip s } ∧
    Task.setName t e =
      Except.error
        (PyError.valueError "The name of the task cannot be an empty string.") ∧
    Task.setDescription t (some e) =
      Except.error
        (PyError.valueError "The description of the task cannot be an empty string.") ∧
    Task.init e none none ti ic g =
      Except.error
        (PyError.valueError "The name of the task cannot be an empty string.") := by
  refine ⟨?_, ?_, ?_, ?_, ?_⟩
  · simp only [Task.init, Task.setName, Task.setDescription, Task.setDueDate,
      Task.setIsComplete, if_neg hs]
    exact ⟨_, rfl, rfl⟩
  · simp [Task.setName, hs]
  · simp [Task.setName, he]
  · simp [Task.setDescription, he]
  · simp only [Task.init, Task.setName, if_pos he]
    rfl

/-- Witness for claim C9: concrete valid and invalid strings. -/
theorem claim_C9_witness :
    (∃ t1, Task.init " a " none none (some "id") false "g" = Except.ok t1 ∧
      t1.name = pyStrip " a ") ∧
    Task.setName sampleTask " a " =
      Except.ok { sampleTask with name := pyStrip " a " } ∧
    Task.setName sampleTask "  " =
      Except.error
        (PyError.valueError "The name of the task cannot be an empty string.") ∧
    Task.setDescription sampleTask (some "  ") =
      Except.error
        (PyError.valueError "The description of the task cannot be an empty string.") ∧
    Task.init "  " none none (some "id") false "g" =
      Except.error
        (PyError.valueError "The name of the task cannot be an empty string.") :=
  claim_C9_name_description_validation " a " "  " sampleTask (some "id") false "g"
    (by decide) (by decide)

/-- Claim C10: `modify(X, name=n, description=d)` with `n` valid and `d` a
non-null string stripping to empty raises the description `ValueError` to the
caller, writes nothing to the file (the state keeps the pre-call file
content), yet the in-memory task is already renamed to the stripped `n` —
the assignments made before the rejected setter stay applied in memory. -/
theorem claim_C10_partial_modify_on_error (m : TaskManager) (tid : String)
    (task : Task) (n d : String)
    (hfound : m._tasks.lookup tid = some task)
    (hn : ¬pyStrip n = "") (hd : pyStrip d = "") :
    TaskManager.modify_task m tid (some n) (some d) none none =
      (Except.error
        (PyError.valueError "The description of the task cannot be an empty string."),
       { m with _tasks := dictInsert m._tasks tid { task with name := pyStrip n } }) := by
  have happ : applyMods task (some n) (some d) none none =
      (Except.error
        (PyError.valueError "The description of the task cannot be an empty string."),
       { task with name := pyStrip n }) := by
    simp [applyMods, Task.setName, Task.setDescription, hn, hd]
  unfold TaskManager.modify_task
  split
  · next heq => rw [hfound] at heq; cases heq
  · next task2 heq =>
    rw [hfound] at heq
    injection heq with heq
    subst heq
    split
    · next t1 snd heq2 =>
      rw [happ] at heq2
      cases heq2
    · next e t1 heq2 =>
      rw [happ] at heq2
      injection heq2 with e1 e2
      injection e1 with e1
      subst e1
      subst e2
      rfl

/-- Witness for claim C10: a concrete modify with a valid name and a
whitespace-only description. -/
theorem claim_C10_witness :
    TaskManager.modify_task managerA "a" (some "New") (some "  ") none none =
      (Except.error
        (PyError.valueError "The description of the task cannot be an empty string."),
       { managerA with
          _tasks := dictInsert managerA._tasks "a"
            { sampleTask with name := pyStrip "New" } }) :=
  claim_C10_partial_modify_on_error managerA "a" sampleTask "New" "  " rfl
    (by decide) (by decide)

end ToDoApp
